import Mathlib

/-
Verification of the igfeed-proxy core (src/igfp/__init__.py): the token
lifecycle state machine (`authorize`, `get_access_token`) and the
time-windowed media cache (`media`), shallowly embedded as pure Lean
functions over an explicit `Context` state, with outbound HTTP responses
and State Store (redis) write outcomes supplied as oracle inputs.
-/

namespace Igfp

/-- Configuration fields of `Settings` consumed by the three core
operations (src lines 56-93). -/
structure Settings where
  APPLICATION_ID : String
  APPLICATION_SECRET : String
  MEDIA_FIELDS : String
  MEDIA_REFRESH_DELAY : Int
  TOKEN_REFRESH_DELAY : Int
deriving DecidableEq, Repr

/-- The process-wide mutable `Context` (src lines 113-122), minus the
redis handle, which is modelled through write-outcome oracles. `media`
holds the parsed JSON payload opaquely as a string. -/
structure Context where
  media : Option String
  media_refreshed : Int
  token : Option String
  token_refreshed : Int
deriving DecidableEq, Repr

/-- An upstream HTTP response as the code consumes it: the status code,
the `access_token` field of the parsed JSON body when present (the code
reads `response.json().get("access_token")`), and the JSON body itself,
kept opaque. -/
structure UpstreamResponse where
  status : Nat
  accessToken : Option String
  body : String
deriving DecidableEq, Repr

/-- Whether `response.raise_for_status()` passes: httpx raises
`HTTPStatusError` exactly for statuses outside the 2xx range. -/
def is2xx (status : Nat) : Bool :=
  decide (200 ≤ status ∧ status < 300)

/-- Errors the three operations raise. `unauthenticated` is the
HTTPException 401 of src line 177; `conflict` is the HTTPException raised
at src line 250 when a token already exists (the spec's `Conflict` kind);
`upstreamRejected` models the exception raised on a non-2xx upstream
response (carrying the response status and body); `storeWriteFailed`
models an exception escaping `context.redis.set`. -/
inductive IgError where
  | unauthenticated
  | conflict
  | upstreamRejected (status : Nat) (body : String)
  | storeWriteFailed
deriving DecidableEq, Repr

/-- One outbound HTTP call, identified by endpoint and the parameters the
code passes (src lines 184-190, 253-262, 266-273, 291-294). -/
inductive UpstreamCall where
  | refreshAccessToken (access_token : String)
  | oauthAccessToken (client_id client_secret code redirect_uri : String)
  | exchangeAccessToken (client_secret : String) (access_token : Option String)
  | meMedia (access_token : Option String) (fields : String)
deriving DecidableEq, Repr

/-- Result of running one operation: the returned value or the raised
error, the `Context` as left in memory (mutations survive a raised
error, since the Python code mutates the singleton in place), the list
of outbound HTTP calls issued, and — as ghost instrumentation — the
assignment performed to the pair `(token, token_refreshed)`, if any. -/
structure OpResult (α : Type) where
  result : Except IgError α
  ctx : Context
  calls : List UpstreamCall
  tokenAssign : Option (Option String × Int)
deriving Repr

/-- External inputs of one `get_access_token` call: the clock value,
the response the refresh GET would return, and whether each of the two
redis writes succeeds. -/
structure RefreshEnv where
  now : Int
  refreshResponse : UpstreamResponse
  setTokenOk : Bool
  setTokenRefreshedOk : Bool
deriving DecidableEq, Repr

/-- The `get_access_token` dependency (src lines 168-196), the spec's
`EnsureFreshToken`: 401 when no token; refresh via GET
`refresh_access_token` when `now - token_refreshed > TOKEN_REFRESH_DELAY`;
on 2xx, `token := body.get("access_token")`, `token_refreshed := now`,
then the two redis writes; returns `context.token`. -/
def get_access_token (s : Settings) (env : RefreshEnv) (c : Context) :
    OpResult (Option String) :=
  match c.token with
  | none => ⟨.error .unauthenticated, c, [], none⟩
  | some tok =>
    if env.now - c.token_refreshed > s.TOKEN_REFRESH_DELAY then
      let r := env.refreshResponse
      let calls := [UpstreamCall.refreshAccessToken tok]
      if is2xx r.status then
        let c2 : Context :=
          { c with token := r.accessToken, token_refreshed := env.now }
        let ta := some (r.accessToken, env.now)
        if env.setTokenOk then
          if env.setTokenRefreshedOk then
            ⟨.ok c2.token, c2, calls, ta⟩
          else ⟨.error .storeWriteFailed, c2, calls, ta⟩
        else ⟨.error .storeWriteFailed, c2, calls, ta⟩
      else ⟨.error (.upstreamRejected r.status r.body), c, calls, none⟩
    else ⟨.ok (some tok), c, [], none⟩

/-- External inputs of one `authorize` call: the clock value, the two
exchange responses, and the outcomes of the two redis writes. -/
structure AuthorizeEnv where
  now : Int
  shortResponse : UpstreamResponse
  longResponse : UpstreamResponse
  setTokenOk : Bool
  setTokenRefreshedOk : Bool
deriving DecidableEq, Repr

/-- The `authorize` endpoint (src lines 242-279): rejected when a token
already exists (src lines 249-250); otherwise POST the code exchange,
check status, GET the long-lived exchange passing the short response's
`access_token`, check status, then assign `token`/`token_refreshed` and
perform the two redis writes. The returned `RedirectResponse` is
modelled as `Unit`. -/
def authorize (s : Settings) (redirect_uri : String) (env : AuthorizeEnv)
    (code : String) (c : Context) : OpResult Unit :=
  if c.token.isSome then ⟨.error .conflict, c, [], none⟩
  else
    let short := env.shortResponse
    let calls1 := [UpstreamCall.oauthAccessToken
      s.APPLICATION_ID s.APPLICATION_SECRET code redirect_uri]
    if is2xx short.status then
      let long := env.longResponse
      let calls2 := calls1 ++
        [UpstreamCall.exchangeAccessToken s.APPLICATION_SECRET short.accessToken]
      if is2xx long.status then
        let c2 : Context :=
          { c with token := long.accessToken, token_refreshed := env.now }
        let ta := some (long.accessToken, env.now)
        if env.setTokenOk then
          if env.setTokenRefreshedOk then
            ⟨.ok (), c2, calls2, ta⟩
          else ⟨.error .storeWriteFailed, c2, calls2, ta⟩
        else ⟨.error .storeWriteFailed, c2, calls2, ta⟩
      else ⟨.error (.upstreamRejected long.status long.body), c, calls2, none⟩
    else ⟨.error (.upstreamRejected short.status short.body), c, calls1, none⟩

/-- External inputs of one `media` call: the inputs of the inner
`get_access_token` dependency, the clock value read by `media` itself,
the media fetch response, and the outcomes of the two redis writes. -/
structure MediaEnv where
  tokenEnv : RefreshEnv
  now : Int
  mediaResponse : UpstreamResponse
  setMediaOk : Bool
  setMediaRefreshedOk : Bool
deriving DecidableEq, Repr

/-- The `media` endpoint (src lines 282-300), the spec's `GetMedia`:
resolves `get_access_token` first (errors propagate); refetches when
`now - media_refreshed > MEDIA_REFRESH_DELAY`; on 2xx assigns
`media`/`media_refreshed` and performs the two redis writes; returns
`context.media`. -/
def media (s : Settings) (env : MediaEnv) (c : Context) :
    OpResult (Option String) :=
  let t := get_access_token s env.tokenEnv c
  match t.result with
  | .error e => ⟨.error e, t.ctx, t.calls, t.tokenAssign⟩
  | .ok access_token =>
    let c1 := t.ctx
    if env.now - c1.media_refreshed > s.MEDIA_REFRESH_DELAY then
      let r := env.mediaResponse
      let calls := t.calls ++ [UpstreamCall.meMedia access_token s.MEDIA_FIELDS]
      if is2xx r.status then
        let c2 : Context :=
          { c1 with media := some r.body, media_refreshed := env.now }
        if env.setMediaOk then
          if env.setMediaRefreshedOk then
            ⟨.ok c2.media, c2, calls, t.tokenAssign⟩
          else ⟨.error .storeWriteFailed, c2, calls, t.tokenAssign⟩
        else ⟨.error .storeWriteFailed, c2, calls, t.tokenAssign⟩
      else ⟨.error (.upstreamRejected r.status r.body), c1, calls, t.tokenAssign⟩
    else ⟨.ok c1.media, c1, t.calls, t.tokenAssign⟩

/-- The four persisted keys as read back from the State Store (src
`RedisKeys`), each independently present or absent, at the parsed level
(the byte-decoding `json.loads` / `.decode()` / `float()` steps of src
lines 145-152 are total on the values the code itself writes). -/
structure RedisState where
  media : Option String
  media_refreshed : Option Int
  token : Option String
  token_refreshed : Option Int
deriving DecidableEq, Repr

/-- Rehydration of the `Context` from the store (src lines 137-159):
each key is read and decoded independently, with no cross-key
consistency check; an absent key leaves the `Context` field default
(`None` for `media`, `0` for the timestamps). -/
def get_context (r : RedisState) : Context :=
  { media := r.media
    media_refreshed := r.media_refreshed.getD 0
    token := r.token
    token_refreshed := r.token_refreshed.getD 0 }

/-- Number of `/me/media` fetches in a call trace. -/
def mediaFetchCount (calls : List UpstreamCall) : Nat :=
  (calls.filter fun call =>
    match call with
    | .meMedia _ _ => true
    | _ => false).length

/-- One core operation together with all its external inputs, for
stating invariants over arbitrary call sequences. -/
inductive Op where
  | opAuthorize (redirect_uri : String) (env : AuthorizeEnv) (code : String)
  | opToken (env : RefreshEnv)
  | opMedia (env : MediaEnv)

/-- Runs one operation against a context, erasing the
operation-specific return value. -/
def runOp (s : Settings) (op : Op) (c : Context) : OpResult Unit :=
  match op with
  | .opAuthorize ru env code => authorize s ru env code c
  | .opToken env =>
    let t := get_access_token s env c
    ⟨t.result.map fun _ => (), t.ctx, t.calls, t.tokenAssign⟩
  | .opMedia env =>
    let m := media s env c
    ⟨m.result.map fun _ => (), m.ctx, m.calls, m.tokenAssign⟩

/-- The context left in memory after a sequence of operations. -/
def runOps (s : Settings) (ops : List Op) (c : Context) : Context :=
  ops.foldl (fun acc op => (runOp s op acc).ctx) c

/-- An operation whose 2xx token-bearing responses all carry an
`access_token` field (the well-formedness assumption under which the
spec's token invariant holds). -/
def GoodOp (op : Op) : Prop :=
  match op with
  | .opAuthorize _ env _ =>
    is2xx env.longResponse.status = true → env.longResponse.accessToken.isSome
  | .opToken env =>
    is2xx env.refreshResponse.status = true → env.refreshResponse.accessToken.isSome
  | .opMedia env =>
    is2xx env.tokenEnv.refreshResponse.status = true →
      env.tokenEnv.refreshResponse.accessToken.isSome

/-- An `Op` that is an `authorize` call in which both exchange responses
are 2xx (so the token assignment of src lines 275-276 is reached,
whatever the subsequent store writes do). -/
def AuthExchangeOk (op : Op) : Prop :=
  match op with
  | .opAuthorize _ env _ =>
    is2xx env.shortResponse.status = true ∧ is2xx env.longResponse.status = true
  | _ => False

/-- Concrete settings used by the witnesses: token refresh delay 10,
media refresh delay 300. -/
def sampleSettings : Settings := ⟨"app-id", "app-secret", "caption,id", 300, 10⟩

/-- A context holding token "T" refreshed at time 0, empty media cache. -/
def ctxTok : Context := ⟨none, 0, some "T", 0⟩

/-- A context with no token. -/
def ctxNone : Context := ⟨none, 0, none, 0⟩

/-- A refresh environment at time 11 (stale for delay 10) whose refresh
GET returns HTTP 500 with body "boom". -/
def refreshFailEnv : RefreshEnv := ⟨11, ⟨500, none, "boom"⟩, true, true⟩

/-- A refresh environment at time 11 whose refresh GET returns HTTP 200
with `access_token` "N". -/
def refreshOkEnv : RefreshEnv := ⟨11, ⟨200, some "N", "tokbody"⟩, true, true⟩

/-- A refresh environment at time 1 (fresh for delay 10). -/
def freshTokenEnv : RefreshEnv := ⟨1, ⟨200, some "N", "tokbody"⟩, true, true⟩

/-- An authorize environment returning `access_token` "S" then "L". -/
def authOkEnv : AuthorizeEnv := ⟨5, ⟨200, some "S", "sbody"⟩, ⟨200, some "L", "lbody"⟩, true, true⟩

/-- A refresh environment at time 9, one below the staleness boundary
for a token refreshed at 0 with delay 10. -/
def boundaryFreshEnv : RefreshEnv := ⟨9, ⟨200, some "N", "tokbody"⟩, true, true⟩

/-- An authorize environment whose first exchange fails with HTTP 500. -/
def authFailShortEnv : AuthorizeEnv :=
  ⟨5, ⟨500, none, "sboom"⟩, ⟨200, some "L", "lbody"⟩, true, true⟩

/-- An authorize environment whose second exchange fails with HTTP 502. -/
def authFailLongEnv : AuthorizeEnv :=
  ⟨5, ⟨200, some "S", "sbody"⟩, ⟨502, none, "lboom"⟩, true, true⟩

/-- A refresh environment at time 11 whose refresh GET returns HTTP 200
with a JSON body lacking the `access_token` field. -/
def refreshNoFieldEnv : RefreshEnv := ⟨11, ⟨200, none, "emptybody"⟩, true, true⟩

/-- A refresh environment at time 11 with a good 2xx response but a
failing redis write for the token key. -/
def refreshStoreFailEnv : RefreshEnv := ⟨11, ⟨200, some "N", "tokbody"⟩, false, true⟩

/-- An authorize environment with two good 2xx responses but a failing
redis write for the token key. -/
def authStoreFailEnv : AuthorizeEnv :=
  ⟨5, ⟨200, some "S", "sbody"⟩, ⟨200, some "L", "lbody"⟩, false, true⟩

/-- A media environment with a fresh token, a stale cache, a good 2xx
fetch, and a failing redis write for the media key. -/
def mediaStoreFailEnv : MediaEnv := ⟨freshTokenEnv, 400, ⟨200, none, "m2"⟩, false, true⟩

/-- A media environment with a fresh token and a clock inside the media
staleness window for a cache refreshed at 0 or at 100. -/
def mediaFreshEnv : MediaEnv := ⟨freshTokenEnv, 200, ⟨200, none, "newm"⟩, true, true⟩

/-- A context with a fresh token and a stale cached payload "old". -/
def ctxMediaOld : Context := ⟨some "old", 0, some "T", 0⟩

/-- A rehydration state with a media-refreshed timestamp but no stored
media payload, plus a fresh token. -/
def redisPartial : RedisState := ⟨none, some 100, some "T", some 0⟩

/-- A refresh environment at time 11 with a good 2xx response but a
failing redis write for the token-refreshed key. -/
def refreshStoreFail2Env : RefreshEnv := ⟨11, ⟨200, some "N", "tokbody"⟩, true, false⟩

/-- Helper: `mediaFetchCount` is additive over concatenation. -/
theorem mediaFetchCount_append (a b : List UpstreamCall) :
    mediaFetchCount (a ++ b) = mediaFetchCount a + mediaFetchCount b := by
  simp [mediaFetchCount, List.filter_append]

/-- Helper: a singleton `/me/media` call counts as one fetch. -/
theorem mediaFetchCount_meMedia (a : Option String) (f : String) :
    mediaFetchCount [UpstreamCall.meMedia a f] = 1 := by
  simp [mediaFetchCount]

/-- Helper: `get_access_token` never touches the media fields of the
context and never issues a `/me/media` fetch. -/
theorem get_access_token_media_untouched (s : Settings) (env : RefreshEnv)
    (c : Context) :
    (get_access_token s env c).ctx.media = c.media ∧
    (get_access_token s env c).ctx.media_refreshed = c.media_refreshed ∧
    mediaFetchCount (get_access_token s env c).calls = 0 := by
  unfold get_access_token
  cases c.token <;> dsimp only
  · simp [mediaFetchCount]
  · split
    · split
      · split
        · split <;> simp [mediaFetchCount]
        · simp [mediaFetchCount]
      · simp [mediaFetchCount]
    · simp [mediaFetchCount]

/-- C1: with a token present and `now - token_refreshed >
TOKEN_REFRESH_DELAY`, if the upstream refresh call returns a non-2xx
status then `get_access_token` leaves the whole context (in particular
`token`) unchanged and fails with an upstream-rejection error carrying
the upstream status and body. -/
theorem refresh_failure_preserves_token (s : Settings) (env : RefreshEnv)
    (c : Context) (tok : String) (htok : c.token = some tok)
    (hstale : env.now - c.token_refreshed > s.TOKEN_REFRESH_DELAY)
    (hbad : is2xx env.refreshResponse.status = false) :
    (get_access_token s env c).result =
      .error (.upstreamRejected env.refreshResponse.status env.refreshResponse.body) ∧
    (get_access_token s env c).ctx = c := by
  unfold get_access_token
  rw [htok]
  simp [hstale, hbad]

/-- Witness for C1 at a concrete stale state and an HTTP 500 refresh
response. -/
theorem refresh_failure_preserves_token_witness :
    (get_access_token sampleSettings refreshFailEnv ctxTok).result =
      .error (.upstreamRejected 500 "boom") ∧
    (get_access_token sampleSettings refreshFailEnv ctxTok).ctx = ctxTok :=
  refresh_failure_preserves_token sampleSettings refreshFailEnv ctxTok "T"
    rfl (by decide) (by decide)

/-- C2: once a token is set, any `authorize` call fails with the
conflict error, leaves the context unchanged and makes no outbound
calls. -/
theorem authorize_conflict_when_token_present (s : Settings)
    (ru : String) (env : AuthorizeEnv) (code : String) (c : Context)
    (tok : String) (htok : c.token = some tok) :
    authorize s ru env code c = ⟨.error .conflict, c, [], none⟩ := by
  unfold authorize
  rw [htok]
  simp

/-- Witness for C2 at a concrete state holding token "T". -/
theorem authorize_conflict_when_token_present_witness :
    authorize sampleSettings "https://d/authorize" authOkEnv "code1" ctxTok =
      ⟨.error .conflict, ctxTok, [], none⟩ :=
  authorize_conflict_when_token_present sampleSettings "https://d/authorize"
    authOkEnv "code1" ctxTok "T" rfl

/-- C9: with no token present, `get_access_token` and `media` both fail
with the unauthenticated error, make no outbound calls and leave the
context unchanged. -/
theorem unauthenticated_before_authorize (s : Settings) (env : RefreshEnv)
    (menv : MediaEnv) (c : Context) (hnone : c.token = none) :
    get_access_token s env c = ⟨.error .unauthenticated, c, [], none⟩ ∧
    media s menv c = ⟨.error .unauthenticated, c, [], none⟩ := by
  constructor
  · unfold get_access_token
    rw [hnone]
  · unfold media get_access_token
    rw [hnone]

/-- Witness for C9 at the empty context. -/
theorem unauthenticated_before_authorize_witness :
    get_access_token sampleSettings refreshOkEnv ctxNone =
      ⟨.error .unauthenticated, ctxNone, [], none⟩ ∧
    media sampleSettings ⟨refreshOkEnv, 11, ⟨200, none, "mbody"⟩, true, true⟩ ctxNone =
      ⟨.error .unauthenticated, ctxNone, [], none⟩ :=
  unauthenticated_before_authorize sampleSettings refreshOkEnv
    ⟨refreshOkEnv, 11, ⟨200, none, "mbody"⟩, true, true⟩ ctxNone rfl

/-- C3: `authorize` from the token-free state is all-or-nothing: a
non-2xx status from either exchange call fails the operation with the
upstream-rejection error and leaves the context unchanged; when both
return 2xx the stored token is the `access_token` of the second
exchange response, with `token_refreshed` set to the call time. -/
theorem authorize_all_or_nothing (s : Settings) (ru : String)
    (env : AuthorizeEnv) (code : String) (c : Context)
    (hnone : c.token = none) :
    (is2xx env.shortResponse.status = false →
      (authorize s ru env code c).result =
        .error (.upstreamRejected env.shortResponse.status env.shortResponse.body) ∧
      (authorize s ru env code c).ctx = c) ∧
    (is2xx env.shortResponse.status = true →
      is2xx env.longResponse.status = false →
      (authorize s ru env code c).result =
        .error (.upstreamRejected env.longResponse.status env.longResponse.body) ∧
      (authorize s ru env code c).ctx = c) ∧
    (is2xx env.shortResponse.status = true →
      is2xx env.longResponse.status = true →
      (authorize s ru env code c).ctx.token = env.longResponse.accessToken ∧
      (authorize s ru env code c).ctx.token_refreshed = env.now) := by
  refine ⟨fun h1 => ?_, fun h1 h2 => ?_, fun h1 h2 => ?_⟩
  · unfold authorize
    rw [hnone]
    simp [h1]
  · unfold authorize
    rw [hnone]
    simp [h1, h2]
  · unfold authorize
    rw [hnone]
    cases e3 : env.setTokenOk <;> cases e4 : env.setTokenRefreshedOk <;>
      simp [h1, h2, e3, e4]

/-- Witness for C3: the three branches at concrete environments; in the
successful branch the mocked responses carry "S" then "L" and the
stored token is "L". -/
theorem authorize_all_or_nothing_witness :
    ((authorize sampleSettings "https://d/authorize" authFailShortEnv "c1" ctxNone).result =
        .error (.upstreamRejected 500 "sboom") ∧
      (authorize sampleSettings "https://d/authorize" authFailShortEnv "c1" ctxNone).ctx = ctxNone) ∧
    ((authorize sampleSettings "https://d/authorize" authFailLongEnv "c1" ctxNone).result =
        .error (.upstreamRejected 502 "lboom") ∧
      (authorize sampleSettings "https://d/authorize" authFailLongEnv "c1" ctxNone).ctx = ctxNone) ∧
    ((authorize sampleSettings "https://d/authorize" authOkEnv "c1" ctxNone).ctx.token = some "L" ∧
      (authorize sampleSettings "https://d/authorize" authOkEnv "c1" ctxNone).ctx.token_refreshed = 5) :=
  ⟨(authorize_all_or_nothing sampleSettings "https://d/authorize" authFailShortEnv
      "c1" ctxNone rfl).1 (by decide),
   (authorize_all_or_nothing sampleSettings "https://d/authorize" authFailLongEnv
      "c1" ctxNone rfl).2.1 (by decide) (by decide),
   (authorize_all_or_nothing sampleSettings "https://d/authorize" authOkEnv
      "c1" ctxNone rfl).2.2 (by decide) (by decide)⟩

/-- C4: whenever the token dependency resolves and the media cache is
stale, a non-2xx media fetch fails `media` with the upstream-rejection
error while `media` and `media_refreshed` keep their previous cached
values. -/
theorem media_fetch_failure_preserves_cache (s : Settings) (env : MediaEnv)
    (c : Context) (tokv : Option String)
    (hok : (get_access_token s env.tokenEnv c).result = .ok tokv)
    (hstale : env.now - c.media_refreshed > s.MEDIA_REFRESH_DELAY)
    (hbad : is2xx env.mediaResponse.status = false) :
    (media s env c).result =
      .error (.upstreamRejected env.mediaResponse.status env.mediaResponse.body) ∧
    (media s env c).ctx.media = c.media ∧
    (media s env c).ctx.media_refreshed = c.media_refreshed := by
  obtain ⟨hm1, hm2, _⟩ := get_access_token_media_untouched s env.tokenEnv c
  simp only [media]
  rw [hok]
  dsimp only
  rw [hm2]
  simp [hstale, hbad, hm1, hm2]

/-- Witness for C4: a fresh token, a stale media cache holding payload
"old", and an HTTP 500 media fetch. -/
theorem media_fetch_failure_preserves_cache_witness :
    (media sampleSettings ⟨freshTokenEnv, 400, ⟨500, none, "mboom"⟩, true, true⟩
        ⟨some "old", 0, some "T", 0⟩).result = .error (.upstreamRejected 500 "mboom") ∧
    (media sampleSettings ⟨freshTokenEnv, 400, ⟨500, none, "mboom"⟩, true, true⟩
        ⟨some "old", 0, some "T", 0⟩).ctx.media = some "old" ∧
    (media sampleSettings ⟨freshTokenEnv, 400, ⟨500, none, "mboom"⟩, true, true⟩
        ⟨some "old", 0, some "T", 0⟩).ctx.media_refreshed = 0 :=
  media_fetch_failure_preserves_cache sampleSettings
    ⟨freshTokenEnv, 400, ⟨500, none, "mboom"⟩, true, true⟩
    ⟨some "old", 0, some "T", 0⟩ (some "T") rfl (by decide) (by decide)

/-- C7: for a token refreshed at time T, `get_access_token` at
`T + TOKEN_REFRESH_DELAY - 1` makes no outbound call and returns the
existing token with the context unchanged; at
`T + TOKEN_REFRESH_DELAY + 1` it makes exactly one refresh call and, on
a 2xx response carrying a token with both store writes succeeding,
returns the new token with `token_refreshed` set to the call time. -/
theorem token_refresh_boundary (s : Settings) (e1 e2 : RefreshEnv)
    (c : Context) (tok t2 : String) (htok : c.token = some tok) :
    (e1.now = c.token_refreshed + s.TOKEN_REFRESH_DELAY - 1 →
      get_access_token s e1 c = ⟨.ok (some tok), c, [], none⟩) ∧
    (e2.now = c.token_refreshed + s.TOKEN_REFRESH_DELAY + 1 →
      (get_access_token s e2 c).calls = [.refreshAccessToken tok] ∧
      (is2xx e2.refreshResponse.status = true →
        e2.refreshResponse.accessToken = some t2 →
        e2.setTokenOk = true → e2.setTokenRefreshedOk = true →
        (get_access_token s e2 c).result = .ok (some t2) ∧
        (get_access_token s e2 c).ctx.token = some t2 ∧
        (get_access_token s e2 c).ctx.token_refreshed = e2.now)) := by
  constructor
  · intro h1
    have hfresh : ¬(e1.now - c.token_refreshed > s.TOKEN_REFRESH_DELAY) := by omega
    unfold get_access_token
    rw [htok]
    simp [hfresh]
  · intro h2
    have hstale : e2.now - c.token_refreshed > s.TOKEN_REFRESH_DELAY := by omega
    constructor
    · unfold get_access_token
      rw [htok]
      dsimp only
      simp only [hstale, if_true]
      split
      · split
        · split <;> rfl
        · rfl
      · rfl
    · intro h2xx hat hs1 hs2
      unfold get_access_token
      rw [htok]
      simp [hstale, h2xx, hat, hs1, hs2]

/-- Witness for C7: token "T" refreshed at 0 with delay 10, probed at
times 9 and 11, the refresh returning token "N". -/
theorem token_refresh_boundary_witness :
    (get_access_token sampleSettings boundaryFreshEnv ctxTok =
      ⟨.ok (some "T"), ctxTok, [], none⟩) ∧
    ((get_access_token sampleSettings refreshOkEnv ctxTok).calls =
        [.refreshAccessToken "T"] ∧
      (get_access_token sampleSettings refreshOkEnv ctxTok).result = .ok (some "N") ∧
      (get_access_token sampleSettings refreshOkEnv ctxTok).ctx.token = some "N" ∧
      (get_access_token sampleSettings refreshOkEnv ctxTok).ctx.token_refreshed = 11) := by
  have h := token_refresh_boundary sampleSettings boundaryFreshEnv refreshOkEnv
    ctxTok "T" "N" rfl
  refine ⟨h.1 (by decide), (h.2 (by decide)).1, ?_⟩
  have h3 := (h.2 (by decide)).2 (by decide) rfl rfl rfl
  exact ⟨h3.1, h3.2.1, h3.2.2⟩

/-- C6: one `media` call with a token present issues at most one
`/me/media` fetch; when `now - media_refreshed ≤ MEDIA_REFRESH_DELAY`
(and the token needs no refresh) it issues no outbound call at all and
returns the cached payload with the context unchanged. -/
theorem media_at_most_one_fetch (s : Settings) (env : MediaEnv)
    (c : Context) (tok : String) (htok : c.token = some tok) :
    mediaFetchCount (media s env c).calls ≤ 1 ∧
    (¬(env.tokenEnv.now - c.token_refreshed > s.TOKEN_REFRESH_DELAY) →
      env.now - c.media_refreshed ≤ s.MEDIA_REFRESH_DELAY →
      media s env c = ⟨.ok c.media, c, [], none⟩) := by
  obtain ⟨_, _, hcount⟩ := get_access_token_media_untouched s env.tokenEnv c
  constructor
  · simp only [media]
    cases hres : (get_access_token s env.tokenEnv c).result <;> dsimp only
    · simp [hcount]
    · split
      · split
        · split
          · split <;> simp [mediaFetchCount_append, mediaFetchCount_meMedia, hcount]
          · simp [mediaFetchCount_append, mediaFetchCount_meMedia, hcount]
        · simp [mediaFetchCount_append, mediaFetchCount_meMedia, hcount]
      · simp [hcount]
  · intro hf hm
    have ht : get_access_token s env.tokenEnv c = ⟨.ok (some tok), c, [], none⟩ := by
      unfold get_access_token
      rw [htok]
      simp [hf]
    have hm2 : ¬(env.now - c.media_refreshed > s.MEDIA_REFRESH_DELAY) := by omega
    simp only [media, ht]
    simp [hm2]

/-- Witness for C6: fresh token, cached payload "old" refreshed at 0,
clock 200, window 300. -/
theorem media_at_most_one_fetch_witness :
    mediaFetchCount (media sampleSettings mediaFreshEnv ctxMediaOld).calls ≤ 1 ∧
    media sampleSettings mediaFreshEnv ctxMediaOld =
      ⟨.ok (some "old"), ctxMediaOld, [], none⟩ := by
  have h := media_at_most_one_fetch sampleSettings mediaFreshEnv ctxMediaOld "T" rfl
  exact ⟨h.1, h.2 (by decide) (by decide)⟩

/-- C10: the four persisted keys are rehydrated independently, so a
store holding a recent media-refreshed timestamp but no media payload
yields, with a fresh valid token, a `media` call that returns a null
payload and makes no upstream call at all. -/
theorem rehydrated_null_payload (s : Settings) (env : MediaEnv)
    (r : RedisState) (tok : String) (mr tr : Int)
    (hm : r.media = none) (hmr : r.media_refreshed = some mr)
    (ht : r.token = some tok) (htr : r.token_refreshed = some tr)
    (hfreshtok : ¬(env.tokenEnv.now - tr > s.TOKEN_REFRESH_DELAY))
    (hfreshmedia : env.now - mr ≤ s.MEDIA_REFRESH_DELAY) :
    media s env (get_context r) = ⟨.ok none, get_context r, [], none⟩ := by
  have hc : get_context r = ⟨none, mr, some tok, tr⟩ := by
    simp [get_context, hm, hmr, ht, htr]
  rw [hc]
  have ht2 : get_access_token s env.tokenEnv ⟨none, mr, some tok, tr⟩ =
      ⟨.ok (some tok), ⟨none, mr, some tok, tr⟩, [], none⟩ := by
    unfold get_access_token
    simp [hfreshtok]
  have hm2 : ¬(env.now - mr > s.MEDIA_REFRESH_DELAY) := by omega
  simp only [media, ht2]
  simp [hm2]

/-- Witness for C10: media-refreshed 100 present, media payload absent,
token "T" refreshed at 0, clocks 1 and 200. -/
theorem rehydrated_null_payload_witness :
    media sampleSettings mediaFreshEnv (get_context redisPartial) =
      ⟨.ok none, get_context redisPartial, [], none⟩ :=
  rehydrated_null_payload sampleSettings mediaFreshEnv redisPartial "T" 100 0
    rfl rfl rfl rfl (by decide) (by decide)

/-- Helper: `get_access_token` either leaves the context unchanged with
no token assignment, or assigns the refresh response's `access_token`
and the clock value, which happens only on a 2xx refresh from a state
with a token. -/
theorem get_access_token_cases (s : Settings) (env : RefreshEnv) (c : Context) :
    ((get_access_token s env c).ctx = c ∧
      (get_access_token s env c).tokenAssign = none) ∨
    ((get_access_token s env c).ctx =
        { c with token := env.refreshResponse.accessToken, token_refreshed := env.now } ∧
      (get_access_token s env c).tokenAssign =
        some (env.refreshResponse.accessToken, env.now) ∧
      is2xx env.refreshResponse.status = true ∧ c.token ≠ none) := by
  cases htok : c.token with
  | none => exact Or.inl (by simp [get_access_token, htok])
  | some tok =>
    by_cases hstale : env.now - c.token_refreshed > s.TOKEN_REFRESH_DELAY
    · by_cases h2 : is2xx env.refreshResponse.status = true
      · refine Or.inr ⟨?_, ?_, h2, by simp [htok]⟩ <;>
          (by_cases hs1 : env.setTokenOk = true <;>
            by_cases hs2 : env.setTokenRefreshedOk = true <;>
            simp [get_access_token, htok, hstale, h2, hs1, hs2])
      · exact Or.inl (by simp [get_access_token, htok, hstale, h2])
    · exact Or.inl (by simp [get_access_token, htok, hstale])

/-- Helper: `authorize` either leaves the context unchanged with no
token assignment, or assigns the long exchange's `access_token` and the
clock value, which happens only when both exchanges return 2xx from the
token-free state. -/
theorem authorize_cases (s : Settings) (ru : String) (env : AuthorizeEnv)
    (code : String) (c : Context) :
    ((authorize s ru env code c).ctx = c ∧
      (authorize s ru env code c).tokenAssign = none) ∨
    ((authorize s ru env code c).ctx =
        { c with token := env.longResponse.accessToken, token_refreshed := env.now } ∧
      (authorize s ru env code c).tokenAssign =
        some (env.longResponse.accessToken, env.now) ∧
      is2xx env.shortResponse.status = true ∧
      is2xx env.longResponse.status = true ∧ c.token = none) := by
  cases htok : c.token with
  | some tok => exact Or.inl (by simp [authorize, htok])
  | none =>
    by_cases h1 : is2xx env.shortResponse.status = true
    · by_cases h2 : is2xx env.longResponse.status = true
      · refine Or.inr ⟨?_, ?_, h1, h2, rfl⟩ <;>
          (by_cases hs1 : env.setTokenOk = true <;>
            by_cases hs2 : env.setTokenRefreshedOk = true <;>
            simp [authorize, htok, h1, h2, hs1, hs2])
      · exact Or.inl (by simp [authorize, htok, h1, h2])
    · exact Or.inl (by simp [authorize, htok, h1])

/-- Helper: `media` leaves the token fields and the token assignment
exactly as the inner `get_access_token` left them. -/
theorem media_token_mirror (s : Settings) (env : MediaEnv) (c : Context) :
    (media s env c).ctx.token = (get_access_token s env.tokenEnv c).ctx.token ∧
    (media s env c).ctx.token_refreshed =
      (get_access_token s env.tokenEnv c).ctx.token_refreshed ∧
    (media s env c).tokenAssign = (get_access_token s env.tokenEnv c).tokenAssign := by
  simp only [media]
  cases hres : (get_access_token s env.tokenEnv c).result <;> dsimp only
  · exact ⟨rfl, rfl, rfl⟩
  · split
    · split
      · split
        · split <;> exact ⟨rfl, rfl, rfl⟩
        · exact ⟨rfl, rfl, rfl⟩
      · exact ⟨rfl, rfl, rfl⟩
    · exact ⟨rfl, rfl, rfl⟩

/-- Helper: `runOp` on a token refresh mirrors `get_access_token`. -/
theorem runOp_token_ctx (s : Settings) (env : RefreshEnv) (c : Context) :
    (runOp s (Op.opToken env) c).ctx = (get_access_token s env c).ctx := rfl

/-- Helper: `runOp` on a token refresh mirrors the token assignment. -/
theorem runOp_token_assign (s : Settings) (env : RefreshEnv) (c : Context) :
    (runOp s (Op.opToken env) c).tokenAssign =
      (get_access_token s env c).tokenAssign := rfl

/-- Helper: `runOp` on a media call mirrors `media`. -/
theorem runOp_media_ctx (s : Settings) (env : MediaEnv) (c : Context) :
    (runOp s (Op.opMedia env) c).ctx = (media s env c).ctx := rfl

/-- Helper: `runOp` on a media call mirrors the token assignment. -/
theorem runOp_media_assign (s : Settings) (env : MediaEnv) (c : Context) :
    (runOp s (Op.opMedia env) c).tokenAssign = (media s env c).tokenAssign := rfl

/-- Helper: `runOp` on an authorize call mirrors `authorize`. -/
theorem runOp_auth_ctx (s : Settings) (ru : String) (env : AuthorizeEnv)
    (code : String) (c : Context) :
    (runOp s (Op.opAuthorize ru env code) c).ctx =
      (authorize s ru env code c).ctx := rfl

/-- Helper: `runOp` on an authorize call mirrors the token assignment. -/
theorem runOp_auth_assign (s : Settings) (ru : String) (env : AuthorizeEnv)
    (code : String) (c : Context) :
    (runOp s (Op.opAuthorize ru env code) c).tokenAssign =
      (authorize s ru env code c).tokenAssign := rfl

/-- C5 counterexample: a successful (HTTP 200) refresh whose JSON body
lacks the `access_token` field clears a previously set token back to
`None` — src line 192 stores `response.json().get("access_token")`,
which is `None` for such a body. -/
theorem refresh_missing_field_clears_token :
    ctxTok.token = some "T" ∧
    is2xx refreshNoFieldEnv.refreshResponse.status = true ∧
    (get_access_token sampleSettings refreshNoFieldEnv ctxTok).ctx.token = none :=
  ⟨rfl, by decide, rfl⟩

/-- C5 amended: provided every 2xx refresh or exchange response carries
an `access_token` field, no operation clears a set token; the token
turns non-`None` only through an `authorize` call whose two exchange
calls both returned 2xx (whatever the subsequent store writes do); each
operation either leaves the pair `(token, token_refreshed)` untouched or
assigns both together; and no sequence of operations free of successful
authorize exchanges creates a token. -/
theorem token_lifecycle_invariant (s : Settings) :
    (∀ op c, GoodOp op → c.token ≠ none → (runOp s op c).ctx.token ≠ none) ∧
    (∀ op c, c.token = none → (runOp s op c).ctx.token ≠ none → AuthExchangeOk op) ∧
    (∀ op c, (runOp s op c).tokenAssign = none →
      (runOp s op c).ctx.token = c.token ∧
      (runOp s op c).ctx.token_refreshed = c.token_refreshed) ∧
    (∀ op c v t, (runOp s op c).tokenAssign = some (v, t) →
      (runOp s op c).ctx.token = v ∧ (runOp s op c).ctx.token_refreshed = t) ∧
    (∀ ops c, c.token = none → (∀ op ∈ ops, ¬ AuthExchangeOk op) →
      (runOps s ops c).token = none) := by
  have hB : ∀ op c, c.token = none → (runOp s op c).ctx.token ≠ none →
      AuthExchangeOk op := by
    intro op c hnone hne
    cases op with
    | opAuthorize ru env code =>
      rcases authorize_cases s ru env code c with ⟨hc, _⟩ | ⟨_, _, h1, h2, _⟩
      · exact absurd (by rw [runOp_auth_ctx, hc]; exact hnone) hne
      · exact ⟨h1, h2⟩
    | opToken env =>
      rcases get_access_token_cases s env c with ⟨hc, _⟩ | ⟨_, _, _, htok⟩
      · exact absurd (by rw [runOp_token_ctx, hc]; exact hnone) hne
      · exact absurd hnone htok
    | opMedia env =>
      obtain ⟨hm1, _, _⟩ := media_token_mirror s env c
      rcases get_access_token_cases s env.tokenEnv c with ⟨hc, _⟩ | ⟨_, _, _, htok⟩
      · exact absurd (by rw [runOp_media_ctx, hm1, hc]; exact hnone) hne
      · exact absurd hnone htok
  refine ⟨?_, hB, ?_, ?_, ?_⟩
  · intro op c hg hne
    cases op with
    | opAuthorize ru env code =>
      rw [runOp_auth_ctx]
      rcases authorize_cases s ru env code c with ⟨hc, _⟩ | ⟨_, _, _, _, hnone⟩
      · rw [hc]; exact hne
      · exact absurd hnone hne
    | opToken env =>
      rw [runOp_token_ctx]
      rcases get_access_token_cases s env c with ⟨hc, _⟩ | ⟨hc, _, h2, _⟩
      · rw [hc]; exact hne
      · rw [hc]; exact Option.ne_none_iff_isSome.mpr (hg h2)
    | opMedia env =>
      obtain ⟨hm1, _, _⟩ := media_token_mirror s env c
      rw [runOp_media_ctx, hm1]
      rcases get_access_token_cases s env.tokenEnv c with ⟨hc, _⟩ | ⟨hc, _, h2, _⟩
      · rw [hc]; exact hne
      · rw [hc]; exact Option.ne_none_iff_isSome.mpr (hg h2)
  · intro op c hassign
    cases op with
    | opAuthorize ru env code =>
      rw [runOp_auth_assign] at hassign
      rw [runOp_auth_ctx]
      rcases authorize_cases s ru env code c with ⟨hc, _⟩ | ⟨_, ha, _⟩
      · rw [hc]; exact ⟨rfl, rfl⟩
      · rw [ha] at hassign; cases hassign
    | opToken env =>
      rw [runOp_token_assign] at hassign
      rw [runOp_token_ctx]
      rcases get_access_token_cases s env c with ⟨hc, _⟩ | ⟨_, ha, _⟩
      · rw [hc]; exact ⟨rfl, rfl⟩
      · rw [ha] at hassign; cases hassign
    | opMedia env =>
      obtain ⟨hm1, hm2, hm3⟩ := media_token_mirror s env c
      rw [runOp_media_assign, hm3] at hassign
      rw [runOp_media_ctx, hm1, hm2]
      rcases get_access_token_cases s env.tokenEnv c with ⟨hc, _⟩ | ⟨_, ha, _⟩
      · rw [hc]; exact ⟨rfl, rfl⟩
      · rw [ha] at hassign; cases hassign
  · intro op c v t hassign
    cases op with
    | opAuthorize ru env code =>
      rw [runOp_auth_assign] at hassign
      rw [runOp_auth_ctx]
      rcases authorize_cases s ru env code c with ⟨_, ha⟩ | ⟨hc, ha, _⟩
      · rw [ha] at hassign; cases hassign
      · rw [ha] at hassign
        simp only [Option.some.injEq, Prod.mk.injEq] at hassign
        obtain ⟨h1, h2⟩ := hassign
        subst h1; subst h2
        rw [hc]; exact ⟨rfl, rfl⟩
    | opToken env =>
      rw [runOp_token_assign] at hassign
      rw [runOp_token_ctx]
      rcases get_access_token_cases s env c with ⟨_, ha⟩ | ⟨hc, ha, _⟩
      · rw [ha] at hassign; cases hassign
      · rw [ha] at hassign
        simp only [Option.some.injEq, Prod.mk.injEq] at hassign
        obtain ⟨h1, h2⟩ := hassign
        subst h1; subst h2
        rw [hc]; exact ⟨rfl, rfl⟩
    | opMedia env =>
      obtain ⟨hm1, hm2, hm3⟩ := media_token_mirror s env c
      rw [runOp_media_assign, hm3] at hassign
      rw [runOp_media_ctx, hm1, hm2]
      rcases get_access_token_cases s env.tokenEnv c with ⟨_, ha⟩ | ⟨hc, ha, _⟩
      · rw [ha] at hassign; cases hassign
      · rw [ha] at hassign
        simp only [Option.some.injEq, Prod.mk.injEq] at hassign
        obtain ⟨h1, h2⟩ := hassign
        subst h1; subst h2
        rw [hc]; exact ⟨rfl, rfl⟩
  · intro ops
    induction ops with
    | nil => intro c h0 _; simpa [runOps] using h0
    | cons op rest ih =>
      intro c h0 hall
      have hstep : (runOp s op c).ctx.token = none := by
        by_contra hne
        exact hall op (List.mem_cons_self op rest) (hB op c h0 hne)
      have hrest : ∀ o ∈ rest, ¬ AuthExchangeOk o :=
        fun o ho => hall o (List.mem_cons_of_mem _ ho)
      simpa [runOps, List.foldl_cons] using ih (runOp s op c).ctx hstep hrest

/-- Witness for the amended C5 invariant, instantiating each conjunct
at concrete inputs. -/
theorem token_lifecycle_invariant_witness :
    ((runOp sampleSettings (Op.opToken refreshOkEnv) ctxTok).ctx.token ≠ none) ∧
    AuthExchangeOk (Op.opAuthorize "https://d/authorize" authOkEnv "c1") ∧
    ((runOp sampleSettings (Op.opToken freshTokenEnv) ctxTok).ctx.token = some "T" ∧
      (runOp sampleSettings (Op.opToken freshTokenEnv) ctxTok).ctx.token_refreshed = 0) ∧
    ((runOp sampleSettings (Op.opToken refreshOkEnv) ctxTok).ctx.token = some "N" ∧
      (runOp sampleSettings (Op.opToken refreshOkEnv) ctxTok).ctx.token_refreshed = 11) ∧
    (runOps sampleSettings [Op.opToken refreshOkEnv] ctxNone).token = none := by
  have h := token_lifecycle_invariant sampleSettings
  refine ⟨h.1 (Op.opToken refreshOkEnv) ctxTok (fun _ => rfl) (by decide),
    h.2.1 (Op.opAuthorize "https://d/authorize" authOkEnv "c1") ctxNone rfl (by decide),
    h.2.2.1 (Op.opToken freshTokenEnv) ctxTok (by decide),
    h.2.2.2.1 (Op.opToken refreshOkEnv) ctxTok (some "N") 11 (by decide),
    h.2.2.2.2 [Op.opToken refreshOkEnv] ctxNone rfl ?_⟩
  intro op hop
  rcases List.mem_singleton.mp hop with rfl
  exact fun hfalse => hfalse

/-- C8 counterexample: a failing redis write after a successful refresh
makes `get_access_token` fail (the exception propagates, src lines
194-195) even though the in-memory token was already updated. -/
theorem store_failure_fails_refresh :
    (get_access_token sampleSettings refreshStoreFailEnv ctxTok).result =
      .error .storeWriteFailed ∧
    (get_access_token sampleSettings refreshStoreFailEnv ctxTok).ctx.token = some "N" ∧
    (get_access_token sampleSettings refreshStoreFailEnv ctxTok).ctx.token_refreshed = 11 :=
  ⟨rfl, rfl, rfl⟩

/-- C8 amended: a State Store write failure makes the operation fail
with the store error rather than return success, but the in-memory
state assignment performed before the write is retained, for each of
the three mutating operations. -/
theorem store_failure_memory_retained (s : Settings) :
    (∀ env c tok, c.token = some tok →
      env.now - c.token_refreshed > s.TOKEN_REFRESH_DELAY →
      is2xx env.refreshResponse.status = true →
      (env.setTokenOk = false ∨ env.setTokenRefreshedOk = false) →
      (get_access_token s env c).result = .error .storeWriteFailed ∧
      (get_access_token s env c).ctx.token = env.refreshResponse.accessToken ∧
      (get_access_token s env c).ctx.token_refreshed = env.now) ∧
    (∀ ru env code c, c.token = none →
      is2xx env.shortResponse.status = true →
      is2xx env.longResponse.status = true →
      (env.setTokenOk = false ∨ env.setTokenRefreshedOk = false) →
      (authorize s ru env code c).result = .error .storeWriteFailed ∧
      (authorize s ru env code c).ctx.token = env.longResponse.accessToken ∧
      (authorize s ru env code c).ctx.token_refreshed = env.now) ∧
    (∀ env c tokv, (get_access_token s env.tokenEnv c).result = .ok tokv →
      env.now - c.media_refreshed > s.MEDIA_REFRESH_DELAY →
      is2xx env.mediaResponse.status = true →
      (env.setMediaOk = false ∨ env.setMediaRefreshedOk = false) →
      (media s env c).result = .error .storeWriteFailed ∧
      (media s env c).ctx.media = some env.mediaResponse.body ∧
      (media s env c).ctx.media_refreshed = env.now) := by
  refine ⟨?_, ?_, ?_⟩
  · intro env c tok htok hstale h2 hset
    rcases hset with h | h
    · simp [get_access_token, htok, hstale, h2, h]
    · by_cases hs1 : env.setTokenOk = true <;>
        simp [get_access_token, htok, hstale, h2, h, hs1]
  · intro ru env code c htok h1 h2 hset
    rcases hset with h | h
    · simp [authorize, htok, h1, h2, h]
    · by_cases hs1 : env.setTokenOk = true <;>
        simp [authorize, htok, h1, h2, h, hs1]
  · intro env c tokv hok hstale h2 hset
    obtain ⟨hm1, hm2, _⟩ := get_access_token_media_untouched s env.tokenEnv c
    simp only [media]
    rw [hok]
    dsimp only
    rw [hm2]
    rcases hset with h | h
    · simp [hstale, h2, h]
    · by_cases hs1 : env.setMediaOk = true <;> simp [hstale, h2, h, hs1]

/-- Witness for the amended C8, instantiating the three operations with
failing store writes at concrete inputs. -/
theorem store_failure_memory_retained_witness :
    ((get_access_token sampleSettings refreshStoreFail2Env ctxTok).result =
        .error .storeWriteFailed ∧
      (get_access_token sampleSettings refreshStoreFail2Env ctxTok).ctx.token = some "N" ∧
      (get_access_token sampleSettings refreshStoreFail2Env ctxTok).ctx.token_refreshed = 11) ∧
    ((authorize sampleSettings "https://d/authorize" authStoreFailEnv "c1" ctxNone).result =
        .error .storeWriteFailed ∧
      (authorize sampleSettings "https://d/authorize" authStoreFailEnv "c1" ctxNone).ctx.token =
        some "L" ∧
      (authorize sampleSettings "https://d/authorize" authStoreFailEnv "c1" ctxNone).ctx.token_refreshed = 5) ∧
    ((media sampleSettings mediaStoreFailEnv ctxMediaOld).result =
        .error .storeWriteFailed ∧
      (media sampleSettings mediaStoreFailEnv ctxMediaOld).ctx.media = some "m2" ∧
      (media sampleSettings mediaStoreFailEnv ctxMediaOld).ctx.media_refreshed = 400) := by
  have h := store_failure_memory_retained sampleSettings
  exact ⟨h.1 refreshStoreFail2Env ctxTok "T" rfl (by decide) (by decide) (Or.inr rfl),
    h.2.1 "https://d/authorize" authStoreFailEnv "c1" ctxNone rfl
      (by decide) (by decide) (Or.inl rfl),
    h.2.2 mediaStoreFailEnv ctxMediaOld (some "T") rfl
      (by decide) (by decide) (Or.inl rfl)⟩

end Igfp
